import Mathlib

/-!
Shallow embedding of the voice-cache / synthesis core of the
NeuTTS German OpenAI API repository.

The embedding follows `src/tts_service.py` (class `TTSService`) and the
voice-alias handling of the `/v1/audio/speech` endpoint in `src/server.py`.
Machine floats (the normalized PCM buffers) are modelled as rationals;
numpy's `astype(np.int16)` float-to-int conversion is modelled as C-cast
semantics: truncation toward zero followed by wrapping modulo 2^16.
The filesystem, wall clock and the black-box neural engine are modelled as
an explicit environment (`Env`) so that every service function is a pure
function of the service state and that environment.
-/

/-- Engine-produced reference encoding (a `torch.Tensor` in the source);
modelled as an opaque value with decidable equality. -/
abbrev RefCode := Nat

/-- Python exceptions that the modelled code can raise.  The constructor
`engineNotReady` is modelled from the spec: the error taxonomy of the spec
names a typed `EngineNotReady` failure, but no such error exists anywhere in
the source; the constructor is present only so that statements can refer to
it and show it is never produced. -/
inductive PyExc where
  | valueError (msg : String)
  | attributeError
  | engineNotReady
  | otherExc (msg : String)
  deriving DecidableEq, Repr

/-- The black-box NeuTTS engine (`self.tts` after construction):
`encode_reference` may raise (modelled as `Except`), `infer` returns a 1-D
normalized float buffer, and `infer_stream` is an optional capability whose
invocation yields a list of chunks and optionally raises an exception after
producing them (generator semantics of the `for` loop in the source). -/
structure Engine where
  encode_reference : String → Except PyExc RefCode
  infer : String → RefCode → String → List ℚ
  infer_stream : Option (String → RefCode → String → List (List ℚ) × Option PyExc)

/-- One cached voice: the dict value stored in `self.voice_cache`
(`tts_service.py` lines 75-81 and 110-116). -/
structure VoiceEntry where
  ref_codes : RefCode
  ref_text : String
  wav_path : String
  is_builtin : Bool
  name : String
  deriving DecidableEq, Repr

/-- The voice cache: a Python dict keyed by voice id, modelled as an
association list in insertion order. -/
abbrev Cache := List (String × VoiceEntry)

/-- The external world: filesystem contents, the `glob` result for the custom
voices directory, the measured wall-clock latency of the current request, and
the engine that `NeuTTS(...)` would construct. -/
structure Env where
  fileExists : String → Bool
  readFileTrim : String → String
  torchLoad : String → RefCode
  voicesDirExists : Bool
  wavFiles : List String
  elapsedMs : ℚ
  mkEngine : Engine

/-- The mutable state of the `TTSService` instance.  `scan_count` is a ghost
counter of how many times `reload_custom_voices` has run; it does not affect
any computed value and only serves to state the one-reload-per-miss policy. -/
structure ServiceState where
  tts : Option Engine
  voice_cache : Cache
  scan_count : Nat

/-- Python dict lookup `self.voice_cache[voice_id]` / `.get`: first (and only)
binding for the key. -/
def cacheGet : Cache → String → Option VoiceEntry
  | [], _ => none
  | p :: rest, key => if p.1 = key then some p.2 else cacheGet rest key

/-- Python dict assignment `self.voice_cache[voice_id] = ...`: overwrite in
place when the key exists, append otherwise (dicts preserve insertion
order). -/
def dictSet (c : Cache) (k : String) (v : VoiceEntry) : Cache :=
  if (cacheGet c k).isSome then c.map (fun p => if p.1 = k then (k, v) else p)
  else c ++ [(k, v)]

/-- `os.path.basename`: the component after the last slash. -/
def basenameOf (p : String) : String :=
  String.mk ((p.toList.reverse.takeWhile (fun c => !(c == Char.ofNat 47))).reverse)

/-- Index of the extension dot of a basename, following `os.path.splitext`:
the last dot, unless every character before it is a dot. -/
def extSplitIdx (b : List Char) : Option Nat :=
  match (b.reverse.findIdx? (fun c => c == Char.ofNat 46)) with
  | none => none
  | some i =>
      let j := b.length - 1 - i
      if (b.take j).any (fun c => !(c == Char.ofNat 46)) then some j else none

/-- `os.path.splitext(basename(p))[0]`: the filename stem used as voice id. -/
def stemOf (p : String) : String :=
  let b := basenameOf p
  match extSplitIdx b.toList with
  | none => b
  | some i => String.mk (b.toList.take i)

/-- `os.path.splitext(p)[0]` on a full path. -/
def splitextRoot (p : String) : String :=
  let b := basenameOf p
  match extSplitIdx b.toList with
  | none => p
  | some i => String.mk (p.toList.take (p.toList.length - (b.toList.length - i)))

/-- Truncation toward zero of a rational: the C-cast float-to-integer rule
(floor for nonnegative values, ceiling for negative ones). -/
def truncToInt (q : ℚ) : ℤ := if 0 ≤ q then ⌊q⌋ else ⌈q⌉

/-- Reduce an integer into the int16 range by wrapping modulo 2^16. -/
def wrap16 (n : ℤ) : ℤ := (n + 32768) % 65536 - 32768

/-- The source's float-to-int16 quantization `(x * 32767).astype(np.int16)`
(`tts_service.py` lines 190 and 202): multiply by 32767, truncate toward
zero, wrap into int16.  No clamping. -/
def quantize (x : ℚ) : ℤ := wrap16 (truncToInt (x * 32767))

/-- `struct.pack` of a `<H` field: two little-endian bytes. -/
def u16le (n : Nat) : List Nat := [n % 256, n / 256 % 256]

/-- `struct.pack` of a `<I` field: four little-endian bytes. -/
def u32le (n : Nat) : List Nat :=
  [n % 256, n / 256 % 256, n / 65536 % 256, n / 16777216 % 256]

/-- One int16 sample as produced by `numpy.tobytes()`: two little-endian
bytes of its two's-complement representation. -/
def i16le (v : ℤ) : List Nat := u16le (v % 65536).toNat

/-- `audio_int16.tobytes()`: concatenation of the int16 samples' bytes. -/
def int16Bytes : List ℤ → List Nat
  | [] => []
  | v :: vs => i16le v ++ int16Bytes vs

/-- Per-chunk byte packaging of the streaming path
(`(chunk * 32767).astype(np.int16).tobytes()`, `tts_service.py` 190-191). -/
def chunkToBytes (chunk : List ℚ) : List Nat := int16Bytes (chunk.map quantize)

/-- `TTSService._create_wav_header` (`tts_service.py` 210-225): the canonical
44-byte RIFF/WAVE header. -/
def createWavHeader (sample_rate num_channels bits_per_sample data_size : Nat) :
    List Nat :=
  [82, 73, 70, 70]
    ++ u32le (36 + data_size)
    ++ [87, 65, 86, 69]
    ++ [102, 109, 116, 32]
    ++ u32le 16
    ++ u16le 1
    ++ u16le num_channels
    ++ u32le sample_rate
    ++ u32le (sample_rate * num_channels * bits_per_sample / 8)
    ++ u16le (num_channels * bits_per_sample / 8)
    ++ u16le bits_per_sample
    ++ [100, 97, 116, 97]
    ++ u32le data_size

/-- `TTSService._numpy_to_wav` (`tts_service.py` 197-208) on a 1-D buffer:
quantize, serialize, and prepend the header (mono, 16 bits). -/
def numpyToWav (audio : List ℚ) (sample_rate : Nat) : List Nat :=
  let audio_bytes := int16Bytes (audio.map quantize)
  createWavHeader sample_rate 1 16 audio_bytes.length ++ audio_bytes

/-- Little-endian decoding of a 2-byte field, for header round-trips. -/
def decode2 : List Nat → Nat
  | a :: b :: _ => a + 256 * b
  | _ => 0

/-- Little-endian decoding of a 4-byte field, for header round-trips. -/
def decode4 : List Nat → Nat
  | a :: b :: c :: d :: _ => a + 256 * b + 65536 * c + 16777216 * d
  | _ => 0

/-- A single apostrophe, used in the source's error message strings. -/
def sglq : String := String.mk [Char.ofNat 39]

/-- The `ValueError` message raised by the orchestrator on a definitive
lookup miss. -/
def voiceNotFoundMsg (voice_id : String) : String :=
  "Voice " ++ sglq ++ voice_id ++ sglq ++ " not found"

/-- The samples directory (colocated with the package in `config.py`). -/
def SAMPLES_DIR : String := "samples"

/-- The fixed built-in voice table of `_load_builtin_samples`. -/
def builtin_voices : List (String × String) :=
  [("greta", "greta"), ("mateo", "mateo"), ("juliette", "juliette")]

/-- One iteration of the `_load_builtin_samples` loop (`tts_service.py`
57-84): require the wav, encode it, then read the transcript if present,
otherwise fall back to a deserialized `.pt` encoding if present. -/
def loadBuiltinStep (eng : Engine) (env : Env) (cache : Cache)
    (vf : String × String) : Cache :=
  let wav_path := SAMPLES_DIR ++ "/" ++ vf.2 ++ ".wav"
  let txt_path := SAMPLES_DIR ++ "/" ++ vf.2 ++ ".txt"
  let pt_path := SAMPLES_DIR ++ "/" ++ vf.2 ++ ".pt"
  if env.fileExists wav_path then
    match eng.encode_reference wav_path with
    | Except.error _ => cache
    | Except.ok rc0 =>
        let rcrt :=
          if env.fileExists txt_path then (rc0, env.readFileTrim txt_path)
          else if env.fileExists pt_path then (env.torchLoad pt_path, "")
          else (rc0, "")
        dictSet cache vf.1
          { ref_codes := rcrt.1, ref_text := rcrt.2, wav_path := wav_path,
            is_builtin := true,
            name := "German " ++ vf.1.capitalize ++ " (built-in)" }
  else cache

/-- `TTSService._load_builtin_samples` (`tts_service.py` 49-84). -/
def loadBuiltins (eng : Engine) (env : Env) (cache : Cache) : Cache :=
  builtin_voices.foldl (loadBuiltinStep eng env) cache

/-- `self.tts.encode_reference(path)`: attribute access on `None` raises
`AttributeError`, which the scan's `except Exception` swallows. -/
def encodeRef (tts : Option Engine) (path : String) : Except PyExc RefCode :=
  match tts with
  | none => Except.error PyExc.attributeError
  | some e => e.encode_reference path

/-- One iteration of the `_scan_custom_voices` loop (`tts_service.py`
95-119): derive the id from the filename stem, skip ids already present,
otherwise encode (failures isolated) and insert. -/
def scanStep (tts : Option Engine) (env : Env) (cache : Cache)
    (wav_path : String) : Cache :=
  let voice_id := stemOf wav_path
  let txt_path := splitextRoot wav_path ++ ".txt"
  if (cacheGet cache voice_id).isSome then cache
  else
    match encodeRef tts wav_path with
    | Except.error _ => cache
    | Except.ok rc =>
        let ref_text :=
          if env.fileExists txt_path then env.readFileTrim txt_path else ""
        dictSet cache voice_id
          { ref_codes := rc, ref_text := ref_text, wav_path := wav_path,
            is_builtin := false, name := "Custom voice: " ++ voice_id }

/-- `TTSService._scan_custom_voices` (`tts_service.py` 86-119): a no-op when
the directory does not exist, otherwise a left fold over the glob result. -/
def scanCustomVoices (tts : Option Engine) (env : Env) (cache : Cache) : Cache :=
  if env.voicesDirExists then env.wavFiles.foldl (scanStep tts env) cache
  else cache

/-- `TTSService.reload_custom_voices` (`tts_service.py` 121-124): rescan and
return the full current id list.  Bumps the ghost reload counter. -/
def reloadCustomVoices (st : ServiceState) (env : Env) :
    List String × ServiceState :=
  let cache := scanCustomVoices st.tts env st.voice_cache
  (cache.map Prod.fst,
   { tts := st.tts, voice_cache := cache, scan_count := st.scan_count + 1 })

/-- `TTSService.get_voice_data` (`tts_service.py` 137-147): on a missing id,
trigger exactly one reload, then answer from the (possibly updated) cache. -/
def getVoiceData (st : ServiceState) (env : Env) (voice_id : String) :
    Option (RefCode × String) × ServiceState :=
  let st1 := if (cacheGet st.voice_cache voice_id).isSome then st
             else (reloadCustomVoices st env).2
  match cacheGet st1.voice_cache voice_id with
  | none => (none, st1)
  | some e => (some (e.ref_codes, e.ref_text), st1)

/-- The timing dict returned by `synthesize`. -/
structure Timing where
  latency_ms : ℚ
  sample_rate : Nat
  duration_seconds : ℚ
  deriving DecidableEq, Repr

/-- `TTSService.synthesize` (`tts_service.py` 149-175): resolve the voice
(raising `ValueError` on a definitive miss), call `self.tts.infer` (an
`AttributeError` crash when the engine is `None`), and package the buffer as
WAV at 24000 Hz with timing metadata. -/
def synthesize (st : ServiceState) (env : Env) (text voice_id : String) :
    Except PyExc (List Nat × Timing) × ServiceState :=
  match getVoiceData st env voice_id with
  | (none, st1) =>
      (Except.error (PyExc.valueError (voiceNotFoundMsg voice_id)), st1)
  | (some (rc, rt), st1) =>
      match st1.tts with
      | none => (Except.error PyExc.attributeError, st1)
      | some eng =>
          let wav := eng.infer text rc rt
          (Except.ok (numpyToWav wav 24000,
            { latency_ms := env.elapsedMs, sample_rate := 24000,
              duration_seconds := (wav.length : ℚ) / 24000 }), st1)

/-- `TTSService.synthesize_streaming` (`tts_service.py` 177-195) as the
list of chunks yielded plus the exception (if any) escaping the generator.
The `try` wraps the whole loop and catches only `AttributeError`; the
fallback then yields one full `synthesize` WAV payload after whatever
chunks were already produced. -/
def synthesizeStreaming (st : ServiceState) (env : Env) (text voice_id : String) :
    (List (List Nat) × Option PyExc) × ServiceState :=
  match getVoiceData st env voice_id with
  | (none, st1) =>
      (([], some (PyExc.valueError (voiceNotFoundMsg voice_id))), st1)
  | (some (rc, rt), st1) =>
      match st1.tts with
      | none =>
          match synthesize st1 env text voice_id with
          | (Except.ok (wav_data, _t), st2) => (([wav_data], none), st2)
          | (Except.error e, st2) => (([], some e), st2)
      | some eng =>
          match eng.infer_stream with
          | none =>
              match synthesize st1 env text voice_id with
              | (Except.ok (wav_data, _t), st2) => (([wav_data], none), st2)
              | (Except.error e, st2) => (([], some e), st2)
          | some f =>
              let ce := f text rc rt
              let bytes := ce.1.map chunkToBytes
              match ce.2 with
              | none => ((bytes, none), st1)
              | some PyExc.attributeError =>
                  match synthesize st1 env text voice_id with
                  | (Except.ok (wav_data, _t), st2) =>
                      ((bytes ++ [wav_data], none), st2)
                  | (Except.error e, st2) => ((bytes, some e), st2)
              | some e => ((bytes, some e), st1)

/-- `TTSService.initialize_tts` (`tts_service.py` 25-47): construct the
engine once, then load builtins, then scan the custom directory. -/
def init_tts (st : ServiceState) (env : Env) : ServiceState :=
  match st.tts with
  | some _ => st
  | none =>
      let eng := env.mkEngine
      let c1 := loadBuiltins eng env st.voice_cache
      let c2 := scanCustomVoices (some eng) env c1
      { tts := some eng, voice_cache := c2, scan_count := st.scan_count }

/-- `TTSService.is_initialized` (`tts_service.py` 227-228). -/
def is_init (st : ServiceState) : Bool := st.tts.isSome

/-- `fastapi.HTTPException` as raised by the speech endpoint. -/
inductive HttpError where
  | httpException (status : Nat) (detail : String)
  deriving DecidableEq, Repr

/-- `str(e)` on the modelled exceptions, for the 500 detail string. -/
def pyExcStr : PyExc → String
  | PyExc.valueError m => m
  | PyExc.attributeError => "AttributeError"
  | PyExc.engineNotReady => "EngineNotReady"
  | PyExc.otherExc m => m

/-- The alias table of the `/v1/audio/speech` endpoint
(`server.py` 79-85). -/
def voice_mapping : List (String × String) :=
  [("greta", "greta"), ("mateo", "mateo"), ("juliette", "juliette"),
   ("coral", "greta"), ("dave", "greta")]

/-- `voice_mapping.get(request.voice, request.voice)` (`server.py` 87). -/
def mapVoice (v : String) : String := (voice_mapping.lookup v).getD v

/-- The body of `openai_speech` after the voice id has been chosen
(`server.py` 90-147): validate against the cache (404 with the original
requested name in the detail), then synthesize (500 on failure).  The
response-format transcoding is external (pydub) and not modelled; the
result carries the synthesized WAV payload and timing. -/
def openaiSpeechCore (st : ServiceState) (env : Env)
    (reqVoice voice_id input : String) :
    Except HttpError (List Nat × Timing) × ServiceState :=
  if (cacheGet st.voice_cache voice_id).isSome then
    match synthesize st env input voice_id with
    | (Except.ok r, st2) => (Except.ok r, st2)
    | (Except.error e, st2) =>
        (Except.error (HttpError.httpException 500
          ("Speech synthesis failed: " ++ pyExcStr e)), st2)
  else
    (Except.error (HttpError.httpException 404
      (voiceNotFoundMsg reqVoice ++ ". Available voices: " ++
        String.intercalate ", " (st.voice_cache.map Prod.fst))), st)

/-- `openai_speech` (`server.py` 69-147): lazily initialize, alias the
requested voice name, then validate and synthesize. -/
def openaiSpeech (st : ServiceState) (env : Env) (input voice : String) :
    Except HttpError (List Nat × Timing) × ServiceState :=
  let st1 := if is_init st then st else init_tts st env
  openaiSpeechCore st1 env voice (mapVoice voice) input

/-! ## Concrete fixtures used by counterexamples and witnesses -/

/-- An engine without the streaming capability whose encoder always
succeeds with code 7 and whose inference returns the empty buffer. -/
def engDummy : Engine :=
  { encode_reference := fun _ => Except.ok 7,
    infer := fun _ _ _ => [],
    infer_stream := none }

/-- An environment with no files at all and no custom-voices directory. -/
def envTrivial : Env :=
  { fileExists := fun _ => false, readFileTrim := fun _ => "",
    torchLoad := fun _ => 0, voicesDirExists := false, wavFiles := [],
    elapsedMs := 0, mkEngine := engDummy }

/-- The service before any initialization. -/
def stUninit : ServiceState := { tts := none, voice_cache := [], scan_count := 0 }

/-- An environment in which every sample file (wav, txt and pt) exists, the
transcript reads "Hallo", and the serialized `.pt` encoding deserializes to
99 (distinct from the wav-encoded 7). -/
def envAllFiles : Env :=
  { fileExists := fun _ => true, readFileTrim := fun _ => "Hallo",
    torchLoad := fun _ => 99, voicesDirExists := false, wavFiles := [],
    elapsedMs := 0, mkEngine := engDummy }

/-- A cached custom voice used by several witnesses. -/
def entryV : VoiceEntry :=
  { ref_codes := 5, ref_text := "Text", wav_path := "/app/voices/v.wav",
    is_builtin := false, name := "Custom voice: v" }

/-- An engine whose streaming capability exists but raises a `ValueError`
before yielding any chunk. -/
def engStreamFail : Engine :=
  { encode_reference := fun _ => Except.ok 7,
    infer := fun _ _ _ => [],
    infer_stream := some (fun _ _ _ => ([], some (PyExc.valueError "boom"))) }

/-- Initialized service whose engine's streaming invocation fails. -/
def stStreamFail : ServiceState :=
  { tts := some engStreamFail, voice_cache := [("v", entryV)], scan_count := 0 }

/-- Initialized service whose engine lacks the streaming capability. -/
def stNoStream : ServiceState :=
  { tts := some engDummy, voice_cache := [("v", entryV)], scan_count := 0 }

/-- Modelled from the spec: the claimed quantization `round(sample * 32767)`
of the numeric-semantics sentence, for comparison with the source's
`quantize`. -/
def quantizeSpec (x : ℚ) : ℤ := round (x * 32767)

/-! ## Helper lemmas -/

theorem cacheGet_append_left {c : Cache} {k : String} {e : VoiceEntry}
    (h : cacheGet c k = some e) (d : Cache) : cacheGet (c ++ d) k = some e := by
  induction c with
  | nil => simp [cacheGet] at h
  | cons p rest ih =>
      rw [List.cons_append]
      by_cases hpk : p.1 = k
      · rw [cacheGet, if_pos hpk] at h ⊢
        exact h
      · rw [cacheGet, if_neg hpk] at h ⊢
        exact ih h

theorem cacheGet_dictSet_self (c : Cache) (k : String) (v : VoiceEntry) :
    cacheGet (dictSet c k v) k = some v := by
  unfold dictSet
  by_cases h : (cacheGet c k).isSome
  · simp only [h, if_true]
    induction c with
    | nil => simp [cacheGet] at h
    | cons p rest ih =>
        by_cases hpk : p.1 = k
        · simp [cacheGet, hpk]
        · simp only [cacheGet, hpk, if_false] at h
          simp only [List.map_cons, hpk, if_false, cacheGet]
          exact ih h
  · simp only [h, if_false]
    induction c with
    | nil => simp [cacheGet]
    | cons p rest ih =>
        by_cases hpk : p.1 = k
        · simp [cacheGet, hpk, Option.isSome] at h
        · simp only [cacheGet, hpk, if_false] at h
          simp only [List.cons_append, cacheGet, hpk, if_false]
          exact ih h

theorem scanStep_preserves {c : Cache} {k : String} {e : VoiceEntry}
    (tts : Option Engine) (env : Env) (f : String)
    (h : cacheGet c k = some e) : cacheGet (scanStep tts env c f) k = some e := by
  simp only [scanStep]
  by_cases hin : (cacheGet c (stemOf f)).isSome
  · simp [hin, h]
  · simp only [hin, if_false]
    cases henc : encodeRef tts f with
    | error _ => simpa using h
    | ok rc =>
        unfold dictSet
        simp only [hin, if_false]
        exact cacheGet_append_left h _

theorem foldl_scanStep_preserves {c : Cache} {k : String} {e : VoiceEntry}
    (tts : Option Engine) (env : Env) (files : List String)
    (h : cacheGet c k = some e) :
    cacheGet (files.foldl (scanStep tts env) c) k = some e := by
  induction files generalizing c with
  | nil => simpa using h
  | cons f rest ih =>
      simp only [List.foldl_cons]
      exact ih (scanStep_preserves tts env f h)

theorem scanCustomVoices_preserves {c : Cache} {k : String} {e : VoiceEntry}
    (tts : Option Engine) (env : Env)
    (h : cacheGet c k = some e) :
    cacheGet (scanCustomVoices tts env c) k = some e := by
  unfold scanCustomVoices
  by_cases hd : env.voicesDirExists
  · simpa [hd] using foldl_scanStep_preserves tts env env.wavFiles h
  · simpa [hd] using h

theorem getVoiceData_tts (st : ServiceState) (env : Env) (voice_id : String) :
    (getVoiceData st env voice_id).2.tts = st.tts := by
  unfold getVoiceData reloadCustomVoices
  by_cases h : (cacheGet st.voice_cache voice_id).isSome
  · simp only [h, if_true]
    split <;> simp
  · simp only [h, if_false]
    split <;> simp

theorem getVoiceData_of_found {st : ServiceState} {k : String} {e : VoiceEntry}
    (env : Env) (h : cacheGet st.voice_cache k = some e) :
    getVoiceData st env k = (some (e.ref_codes, e.ref_text), st) := by
  unfold getVoiceData
  simp [h, Option.isSome]

theorem synthesize_of_found {st : ServiceState} {k : String} {e : VoiceEntry}
    {eng : Engine} (env : Env) (text : String)
    (h : cacheGet st.voice_cache k = some e) (htts : st.tts = some eng) :
    synthesize st env text k =
      (Except.ok (numpyToWav (eng.infer text e.ref_codes e.ref_text) 24000,
        { latency_ms := env.elapsedMs, sample_rate := 24000,
          duration_seconds :=
            ((eng.infer text e.ref_codes e.ref_text).length : ℚ) / 24000 }), st) := by
  unfold synthesize
  rw [getVoiceData_of_found env h]
  simp [htts]

theorem int16Bytes_length (l : List ℤ) : (int16Bytes l).length = 2 * l.length := by
  induction l with
  | nil => rfl
  | cons v vs ih => simp [int16Bytes, i16le, u16le, ih]; ring

theorem isSome_scanStep_of_isSome {c : Cache} {k : String}
    (tts : Option Engine) (env : Env) (f : String)
    (h : (cacheGet c k).isSome) : (cacheGet (scanStep tts env c f) k).isSome := by
  obtain ⟨e, he⟩ := Option.isSome_iff_exists.mp h
  exact Option.isSome_iff_exists.mpr ⟨e, scanStep_preserves tts env f he⟩

theorem isSome_foldl_scanStep_of_isSome {c : Cache} {k : String}
    (tts : Option Engine) (env : Env) (files : List String)
    (h : (cacheGet c k).isSome) :
    (cacheGet (files.foldl (scanStep tts env) c) k).isSome := by
  induction files generalizing c with
  | nil => simpa using h
  | cons f rest ih =>
      simp only [List.foldl_cons]
      exact ih (isSome_scanStep_of_isSome tts env f h)

theorem scanStep_of_has {c : Cache} (tts : Option Engine) (env : Env) (f : String)
    (h : (cacheGet c (stemOf f)).isSome) : scanStep tts env c f = c := by
  simp [scanStep, h]

theorem scanStep_of_encode_error {c : Cache} {ex : PyExc}
    (tts : Option Engine) (env : Env) (f : String)
    (h : encodeRef tts f = Except.error ex) : scanStep tts env c f = c := by
  by_cases hin : (cacheGet c (stemOf f)).isSome
  · exact scanStep_of_has tts env f hin
  · simp [scanStep, hin, h]

theorem isSome_scanStep_self {c : Cache} {rc : RefCode}
    (tts : Option Engine) (env : Env) (f : String)
    (h : encodeRef tts f = Except.ok rc) :
    (cacheGet (scanStep tts env c f) (stemOf f)).isSome := by
  by_cases hin : (cacheGet c (stemOf f)).isSome
  · rw [scanStep_of_has tts env f hin]; exact hin
  · simp [scanStep, hin, h, cacheGet_dictSet_self]

theorem isSome_foldl_scanStep_of_mem {c : Cache} {rc : RefCode} {f : String}
    (tts : Option Engine) (env : Env) (files : List String)
    (hmem : f ∈ files) (h : encodeRef tts f = Except.ok rc) :
    (cacheGet (files.foldl (scanStep tts env) c) (stemOf f)).isSome := by
  induction files generalizing c with
  | nil => simp at hmem
  | cons g rest ih =>
      simp only [List.foldl_cons]
      rcases List.mem_cons.mp hmem with hfg | hfr
      · subst hfg
        exact isSome_foldl_scanStep_of_isSome tts env rest
          (isSome_scanStep_self tts env f h)
      · exact ih hfr

theorem foldl_scanStep_fix {c : Cache}
    (tts : Option Engine) (env : Env) (files : List String)
    (hfix : ∀ f ∈ files, scanStep tts env c f = c) :
    files.foldl (scanStep tts env) c = c := by
  induction files with
  | nil => rfl
  | cons g rest ih =>
      simp only [List.foldl_cons, hfix g (List.mem_cons_self g rest)]
      exact ih (fun f hf => hfix f (List.mem_cons_of_mem g hf))

theorem scanCustomVoices_idem (tts : Option Engine) (env : Env) (c : Cache) :
    scanCustomVoices tts env (scanCustomVoices tts env c) =
      scanCustomVoices tts env c := by
  by_cases hd : env.voicesDirExists
  · simp only [scanCustomVoices, hd, if_true]
    apply foldl_scanStep_fix
    intro f hf
    cases henc : encodeRef tts f with
    | error ex => exact scanStep_of_encode_error tts env f henc
    | ok rc =>
        exact scanStep_of_has tts env f
          (isSome_foldl_scanStep_of_mem tts env env.wavFiles hf henc)
  · simp [scanCustomVoices, hd]

theorem getVoiceData_of_missing {st : ServiceState} {k : String} (env : Env)
    (h : cacheGet st.voice_cache k = none) :
    getVoiceData st env k =
      ((cacheGet (scanCustomVoices st.tts env st.voice_cache) k).map
         (fun e => (e.ref_codes, e.ref_text)),
       { tts := st.tts, voice_cache := scanCustomVoices st.tts env st.voice_cache,
         scan_count := st.scan_count + 1 }) := by
  have hiss : (cacheGet st.voice_cache k).isSome = false := by simp [h]
  unfold getVoiceData reloadCustomVoices
  simp only [hiss, Bool.false_eq_true, if_false]
  cases hc : cacheGet (scanCustomVoices st.tts env st.voice_cache) k with
  | none => simp
  | some e => simp

/-! ## Claim theorems -/

/-- C3, counterexample: the claim says the quantization computes
`round(x * 32767)`; at `x = 1/2` the source computes 16383 (truncation
toward zero of 16383.5) while `round` gives 16384. -/
theorem quantize_is_trunc_not_round :
    quantize (1/2) = 16383 ∧ quantizeSpec (1/2) = 16384 ∧
      quantize (1/2) ≠ quantizeSpec (1/2) := by
  refine ⟨?_, ?_, ?_⟩
  · norm_num [quantize, wrap16, truncToInt]
  · norm_num [quantizeSpec, round_eq]
  · norm_num [quantize, quantizeSpec, wrap16, truncToInt, round_eq]

/-- C3, amended: the float-to-int16 quantization used in both the one-shot
WAV packaging and the per-chunk streaming path computes truncation toward
zero of `x * 32767` reduced into the int16 range by wrapping modulo 2^16,
with no clamping: the result always lies in [-32768, 32767] and is congruent
to the truncated product modulo 65536, and the out-of-range input `x = 2`
wraps to -2 instead of saturating at 32767. -/
theorem quantize_trunc_wrap :
    (∀ x : ℚ, -32768 ≤ quantize x ∧ quantize x ≤ 32767 ∧
      quantize x % 65536 = truncToInt (x * 32767) % 65536) ∧
    quantize 2 = -2 ∧ quantize 2 ≠ 32767 := by
  refine ⟨?_, ?_, ?_⟩
  · intro x
    unfold quantize wrap16
    omega
  · norm_num [quantize, wrap16, truncToInt]
  · norm_num [quantize, wrap16, truncToInt]

/-- C1, counterexample: with the engine lifecycle guard reporting
uninitialized (`tts = None`, empty cache, no custom directory), `synthesize`
fails with the untyped voice-not-found `ValueError` — not with an
`EngineNotReady` error, which the code never produces. -/
theorem synthesize_uninit_not_engineNotReady :
    (synthesize stUninit envTrivial "hallo" "greta").1 =
      Except.error (PyExc.valueError (voiceNotFoundMsg "greta")) ∧
    (Except.error (PyExc.valueError (voiceNotFoundMsg "greta")) :
      Except PyExc (List Nat × Timing)) ≠ Except.error PyExc.engineNotReady := by
  exact ⟨rfl, by simp⟩

/-- C1, amended: whenever `is_initialized` would report false
(`tts = None`), `synthesize` fails, but never with a typed `EngineNotReady`
error (no such error exists in the code): it raises either the
voice-not-found `ValueError` (when the lookup misses) or an
`AttributeError` crash from calling `infer` on `None`. -/
theorem synthesize_uninit_fails_untyped :
    ∀ (st : ServiceState) (env : Env) (text voice_id : String),
      st.tts = none →
      (synthesize st env text voice_id).1 =
          Except.error (PyExc.valueError (voiceNotFoundMsg voice_id)) ∨
        (synthesize st env text voice_id).1 = Except.error PyExc.attributeError := by
  intro st env text voice_id h
  have htts : (getVoiceData st env voice_id).2.tts = none := by
    rw [getVoiceData_tts]; exact h
  unfold synthesize
  rcases hgv : getVoiceData st env voice_id with ⟨vd, st1⟩
  rw [hgv] at htts
  cases vd with
  | none => left; rfl
  | some p =>
      rcases p with ⟨rc, rt⟩
      right
      have h1 : st1.tts = none := htts
      simp only [h1]

/-- Witness for the amended C1 at a concrete uninitialized state. -/
theorem synthesize_uninit_fails_untyped_witness :
    (synthesize stUninit envTrivial "hallo" "greta").1 =
        Except.error (PyExc.valueError (voiceNotFoundMsg "greta")) ∨
      (synthesize stUninit envTrivial "hallo" "greta").1 =
        Except.error PyExc.attributeError :=
  synthesize_uninit_fails_untyped stUninit envTrivial "hallo" "greta" rfl

/-- C2, counterexample: with all three files present (wav, txt and pt) the
built-in loader keeps the wav-encoded reference (7) and ignores the
serialized `.pt` value (99): the `.pt` overwrite does not happen when the
transcript file is present, because it sits in the `elif` branch. -/
theorem builtin_pt_ignored_when_txt_present :
    cacheGet (loadBuiltins engDummy envAllFiles []) "greta" =
      some { ref_codes := 7, ref_text := "Hallo",
             wav_path := "samples/greta.wav", is_builtin := true,
             name := "German Greta (built-in)" } ∧
    envAllFiles.torchLoad "samples/greta.pt" = 99 ∧ (7 : RefCode) ≠ 99 := by
  exact ⟨rfl, rfl, by decide⟩

/-- C2, amended: for a built-in voice whose wav exists and encodes
successfully, the loaded entry takes its transcript from `<name>.txt` when
that file exists (and then keeps the wav-encoded reference, ignoring any
`<name>.pt`); only when the transcript is absent does an existing
`<name>.pt` replace the reference code with the deserialized value. -/
theorem builtin_load_order :
    ∀ (eng : Engine) (env : Env) (cache : Cache) (vid fname : String)
      (rc0 : RefCode),
      env.fileExists (SAMPLES_DIR ++ "/" ++ fname ++ ".wav") = true →
      eng.encode_reference (SAMPLES_DIR ++ "/" ++ fname ++ ".wav") =
        Except.ok rc0 →
      cacheGet (loadBuiltinStep eng env cache (vid, fname)) vid =
        some { ref_codes :=
                 if env.fileExists (SAMPLES_DIR ++ "/" ++ fname ++ ".txt") then
                   rc0
                 else if env.fileExists (SAMPLES_DIR ++ "/" ++ fname ++ ".pt") then
                   env.torchLoad (SAMPLES_DIR ++ "/" ++ fname ++ ".pt")
                 else rc0,
               ref_text :=
                 if env.fileExists (SAMPLES_DIR ++ "/" ++ fname ++ ".txt") then
                   env.readFileTrim (SAMPLES_DIR ++ "/" ++ fname ++ ".txt")
                 else "",
               wav_path := SAMPLES_DIR ++ "/" ++ fname ++ ".wav",
               is_builtin := true,
               name := "German " ++ vid.capitalize ++ " (built-in)" } := by
  intro eng env cache vid fname rc0 hwav henc
  simp only [loadBuiltinStep, hwav, if_true, henc]
  by_cases htxt : env.fileExists (SAMPLES_DIR ++ "/" ++ fname ++ ".txt")
  · simp [htxt, cacheGet_dictSet_self]
  · by_cases hpt : env.fileExists (SAMPLES_DIR ++ "/" ++ fname ++ ".pt")
    · simp [htxt, hpt, cacheGet_dictSet_self]
    · simp [htxt, hpt, cacheGet_dictSet_self]

/-- Witness for the amended C2: all files present, entry keeps the
wav-encoded reference and the read transcript. -/
theorem builtin_load_order_witness :
    cacheGet (loadBuiltinStep engDummy envAllFiles [] ("greta", "greta"))
        "greta" =
      some { ref_codes :=
               if envAllFiles.fileExists (SAMPLES_DIR ++ "/" ++ "greta" ++ ".txt")
               then 7
               else if envAllFiles.fileExists
                   (SAMPLES_DIR ++ "/" ++ "greta" ++ ".pt") then
                 envAllFiles.torchLoad (SAMPLES_DIR ++ "/" ++ "greta" ++ ".pt")
               else 7,
             ref_text :=
               if envAllFiles.fileExists (SAMPLES_DIR ++ "/" ++ "greta" ++ ".txt")
               then envAllFiles.readFileTrim
                 (SAMPLES_DIR ++ "/" ++ "greta" ++ ".txt")
               else "",
             wav_path := SAMPLES_DIR ++ "/" ++ "greta" ++ ".wav",
             is_builtin := true,
             name := "German " ++ "greta".capitalize ++ " (built-in)" } :=
  builtin_load_order engDummy envAllFiles [] "greta" "greta" 7 rfl rfl

/-- C5: an id already present in the registry is never overwritten,
re-encoded or mutated by custom-directory scans or reloads — its entry
survives any sequence of scans (run with arbitrary engines and directory
contents) unchanged; a reload likewise preserves it; and a lookup of a
present id returns its cached reference data and leaves the whole service
state untouched, so repeated lookups return the same reference code. -/
theorem registry_entries_never_overwritten :
    (∀ (steps : List (Option Engine × Env)) (c : Cache) (k : String)
       (e : VoiceEntry), cacheGet c k = some e →
       cacheGet (steps.foldl (fun acc p => scanCustomVoices p.1 p.2 acc) c) k =
         some e) ∧
    (∀ (st : ServiceState) (env : Env) (k : String) (e : VoiceEntry),
       cacheGet st.voice_cache k = some e →
       cacheGet (reloadCustomVoices st env).2.voice_cache k = some e) ∧
    (∀ (st : ServiceState) (env : Env) (k : String) (e : VoiceEntry),
       cacheGet st.voice_cache k = some e →
       getVoiceData st env k = (some (e.ref_codes, e.ref_text), st)) := by
  refine ⟨?_, ?_, ?_⟩
  · intro steps c k e h
    induction steps generalizing c with
    | nil => simpa using h
    | cons p rest ih =>
        simp only [List.foldl_cons]
        exact ih _ (scanCustomVoices_preserves p.1 p.2 h)
  · intro st env k e h
    exact scanCustomVoices_preserves st.tts env h
  · intro st env k e h
    exact getVoiceData_of_found env h

/-- Witness for C5 at a concrete one-entry registry. -/
theorem registry_entries_never_overwritten_witness :
    cacheGet
        ([(some engDummy, envTrivial), (none, envAllFiles)].foldl
          (fun acc p => scanCustomVoices p.1 p.2 acc) [("v", entryV)]) "v" =
      some entryV ∧
    getVoiceData stNoStream envTrivial "v" =
      (some (entryV.ref_codes, entryV.ref_text), stNoStream) :=
  ⟨registry_entries_never_overwritten.1 _ [("v", entryV)] "v" entryV rfl,
   registry_entries_never_overwritten.2.2 stNoStream envTrivial "v" entryV rfl⟩

/-- C6: reload is idempotent — with an unchanged environment a second
reload returns the same voice id list and leaves the registry equal to what
the first reload produced; and reload never removes or changes an existing
entry (it only adds). -/
theorem reload_idempotent :
    ∀ (st : ServiceState) (env : Env),
      (reloadCustomVoices (reloadCustomVoices st env).2 env).1 =
          (reloadCustomVoices st env).1 ∧
      (reloadCustomVoices (reloadCustomVoices st env).2 env).2.voice_cache =
          (reloadCustomVoices st env).2.voice_cache ∧
      (∀ (k : String) (e : VoiceEntry), cacheGet st.voice_cache k = some e →
        cacheGet (reloadCustomVoices st env).2.voice_cache k = some e) := by
  intro st env
  have hcc : scanCustomVoices st.tts env
      (scanCustomVoices st.tts env st.voice_cache) =
      scanCustomVoices st.tts env st.voice_cache :=
    scanCustomVoices_idem st.tts env st.voice_cache
  refine ⟨?_, ?_, ?_⟩
  · simp [reloadCustomVoices, hcc]
  · simp [reloadCustomVoices, hcc]
  · intro k e h
    exact scanCustomVoices_preserves st.tts env h

/-- Witness for C6 at a concrete state and environment. -/
theorem reload_idempotent_witness :
    (reloadCustomVoices (reloadCustomVoices stNoStream envTrivial).2
        envTrivial).1 = (reloadCustomVoices stNoStream envTrivial).1 ∧
    cacheGet (reloadCustomVoices stNoStream envTrivial).2.voice_cache "v" =
      some entryV :=
  ⟨(reload_idempotent stNoStream envTrivial).1,
   (reload_idempotent stNoStream envTrivial).2.2 "v" entryV rfl⟩

/-- C7: a lookup of an id absent from the registry triggers exactly one
reload (the ghost reload counter increases by exactly one and the cache
becomes the result of a single scan), answers from the post-reload cache —
so an id that became resolvable by that single rescan succeeds without any
restart — and, when the id is still absent after the rescan, `synthesize`
fails with the voice-not-found `ValueError` having performed only that one
rescan. -/
theorem lookup_single_reload_retry :
    ∀ (st : ServiceState) (env : Env) (text k : String),
      cacheGet st.voice_cache k = none →
      (getVoiceData st env k).2.voice_cache =
          scanCustomVoices st.tts env st.voice_cache ∧
      (getVoiceData st env k).2.scan_count = st.scan_count + 1 ∧
      (getVoiceData st env k).2.tts = st.tts ∧
      (getVoiceData st env k).1 =
        (cacheGet (scanCustomVoices st.tts env st.voice_cache) k).map
          (fun e => (e.ref_codes, e.ref_text)) ∧
      (cacheGet (scanCustomVoices st.tts env st.voice_cache) k = none →
        (synthesize st env text k).1 =
            Except.error (PyExc.valueError (voiceNotFoundMsg k)) ∧
        (synthesize st env text k).2.scan_count = st.scan_count + 1) := by
  intro st env text k h
  have hm := getVoiceData_of_missing env h
  refine ⟨by rw [hm], by rw [hm], by rw [hm], by rw [hm], ?_⟩
  intro hc
  unfold synthesize
  rw [hm, hc]
  exact ⟨rfl, rfl⟩

/-- Witness for C7 at a concrete state with an unknown id. -/
theorem lookup_single_reload_retry_witness :
    (getVoiceData stUninit envTrivial "x").2.scan_count =
        stUninit.scan_count + 1 ∧
    (synthesize stUninit envTrivial "hallo" "x").1 =
      Except.error (PyExc.valueError (voiceNotFoundMsg "x")) :=
  ⟨(lookup_single_reload_retry stUninit envTrivial "hallo" "x" rfl).2.1,
   ((lookup_single_reload_retry stUninit envTrivial "hallo" "x" rfl).2.2.2.2
      rfl).1⟩

theorem createWavHeader_length (a b c d : Nat) :
    (createWavHeader a b c d).length = 44 := rfl

/-- C4: for every sample list and sample rate the WAV encoder output is the
44-byte little-endian RIFF/WAVE header — RIFF size 36+dataSize, fmt chunk
size 16, audio format 1, the given (mono) channel count and sample rate,
byte rate sampleRate*channels*bitsPerSample/8, block align
channels*bitsPerSample/8, bits per sample 16, data chunk size
dataSize = 2*sampleCount — followed immediately by the raw int16 sample
bytes; the little-endian fields decode back to their values; and for the
empty sample list at 24000 Hz the output is exactly the 44 header bytes
with data-size field 0 and RIFF size field 36. -/
theorem wav_encoder_layout :
    (∀ (audio : List ℚ) (sr : Nat),
       numpyToWav audio sr =
         [82, 73, 70, 70] ++ u32le (36 + 2 * audio.length)
           ++ [87, 65, 86, 69] ++ [102, 109, 116, 32] ++ u32le 16
           ++ u16le 1 ++ u16le 1 ++ u32le sr ++ u32le (sr * 1 * 16 / 8)
           ++ u16le (1 * 16 / 8) ++ u16le 16 ++ [100, 97, 116, 97]
           ++ u32le (2 * audio.length) ++ int16Bytes (audio.map quantize)) ∧
    (∀ (audio : List ℚ) (sr : Nat),
       (numpyToWav audio sr).take 44 =
           createWavHeader sr 1 16 (2 * audio.length) ∧
       (numpyToWav audio sr).drop 44 = int16Bytes (audio.map quantize) ∧
       (numpyToWav audio sr).length = 44 + 2 * audio.length) ∧
    (∀ (n : Nat) (rest : List Nat), n < 4294967296 →
       decode4 (u32le n ++ rest) = n) ∧
    (∀ (n : Nat) (rest : List Nat), n < 65536 →
       decode2 (u16le n ++ rest) = n) ∧
    numpyToWav [] 24000 =
      [82, 73, 70, 70, 36, 0, 0, 0, 87, 65, 86, 69, 102, 109, 116, 32,
       16, 0, 0, 0, 1, 0, 1, 0, 192, 93, 0, 0, 128, 187, 0, 0, 2, 0, 16, 0,
       100, 97, 116, 97, 0, 0, 0, 0] := by
  have hbytes : ∀ audio : List ℚ,
      (int16Bytes (audio.map quantize)).length = 2 * audio.length := by
    intro audio
    rw [int16Bytes_length, List.length_map]
  have hdef : ∀ (audio : List ℚ) (sr : Nat),
      numpyToWav audio sr =
        createWavHeader sr 1 16 (2 * audio.length) ++
          int16Bytes (audio.map quantize) := by
    intro audio sr
    show createWavHeader sr 1 16 (int16Bytes (List.map quantize audio)).length ++
        int16Bytes (List.map quantize audio) =
      createWavHeader sr 1 16 (2 * audio.length) ++
        int16Bytes (List.map quantize audio)
    rw [hbytes]
  refine ⟨?_, ?_, ?_, ?_, rfl⟩
  · intro audio sr
    rw [hdef]
    simp [createWavHeader, List.append_assoc]
  · intro audio sr
    rw [hdef]
    refine ⟨List.take_left' (createWavHeader_length _ _ _ _),
            List.drop_left' (createWavHeader_length _ _ _ _), ?_⟩
    rw [List.length_append, createWavHeader_length, hbytes]
  · intro n rest h
    simp only [u32le, List.cons_append, List.nil_append, decode4]
    omega
  · intro n rest h
    simp only [u16le, List.cons_append, List.nil_append, decode2]
    omega

/-- Witness for C4 at concrete inputs. -/
theorem wav_encoder_layout_witness :
    ((numpyToWav [1/2] 24000).take 44 = createWavHeader 24000 1 16 2 ∧
     (numpyToWav [1/2] 24000).drop 44 = int16Bytes ([(1 : ℚ)/2].map quantize) ∧
     (numpyToWav [1/2] 24000).length = 44 + 2 * 1) ∧
    decode4 (u32le 24000 ++ [7]) = 24000 ∧ decode2 (u16le 16 ++ [7]) = 16 :=
  ⟨wav_encoder_layout.2.1 [1/2] 24000,
   wav_encoder_layout.2.2.1 24000 [7] (by norm_num),
   wav_encoder_layout.2.2.2.1 16 [7] (by norm_num)⟩

/-- C9: when the voice resolves from the cache and the engine is present,
`synthesize` returns the WAV packaging of the engine's float buffer with
`sample_rate = 24000` and `duration_seconds` exactly `N / 24000`, where the
WAV payload's data section holds exactly `2 * N` bytes — `N` being the
number of samples encoded into the returned payload. -/
theorem synthesize_duration_exact :
    ∀ (st : ServiceState) (env : Env) (text vid : String) (eng : Engine)
      (e : VoiceEntry),
      st.tts = some eng →
      cacheGet st.voice_cache vid = some e →
      (synthesize st env text vid).1 =
        Except.ok (numpyToWav (eng.infer text e.ref_codes e.ref_text) 24000,
          { latency_ms := env.elapsedMs, sample_rate := 24000,
            duration_seconds :=
              ((eng.infer text e.ref_codes e.ref_text).length : ℚ) / 24000 }) ∧
      ((numpyToWav (eng.infer text e.ref_codes e.ref_text) 24000).drop 44).length
        = 2 * (eng.infer text e.ref_codes e.ref_text).length := by
  intro st env text vid eng e htts hget
  constructor
  · rw [synthesize_of_found env text hget htts]
  · rw [wav_encoder_layout.2.1 (eng.infer text e.ref_codes e.ref_text) 24000
        |>.2.1]
    rw [int16Bytes_length, List.length_map]

/-- Witness for C9 at a concrete cached voice. -/
theorem synthesize_duration_exact_witness :
    (synthesize stNoStream envTrivial "t" "v").1 =
      Except.ok (numpyToWav (engDummy.infer "t" entryV.ref_codes entryV.ref_text)
          24000,
        { latency_ms := envTrivial.elapsedMs, sample_rate := 24000,
          duration_seconds :=
            ((engDummy.infer "t" entryV.ref_codes entryV.ref_text).length : ℚ) /
              24000 }) :=
  (synthesize_duration_exact stNoStream envTrivial "t" "v" engDummy entryV rfl
    rfl).1

/-- C8, counterexample: a failure of the streaming capability that is not
an `AttributeError` (here a `ValueError` raised by `infer_stream`) is not
treated like the capability's absence: the absence case silently yields the
one full WAV chunk, while the `ValueError` propagates to the caller with no
chunk at all. -/
theorem streaming_failure_not_silent :
    (synthesizeStreaming stStreamFail envTrivial "t" "v").1 =
      ([], some (PyExc.valueError "boom")) ∧
    (synthesizeStreaming stNoStream envTrivial "t" "v").1 =
      ([numpyToWav [] 24000], none) ∧
    (([], some (PyExc.valueError "boom")) :
      List (List Nat) × Option PyExc) ≠ ([numpyToWav [] 24000], none) := by
  exact ⟨rfl, rfl, by simp⟩

/-- C8, amended: for a resolvable voice with the engine present, when
`infer_stream` is absent the orchestrator silently yields exactly one chunk
equal to the full `synthesize` WAV payload; a successful stream yields its
quantized chunks; a stream that raises `AttributeError` mid-iteration also
falls back (the already-yielded chunks followed by the full WAV payload);
but only `AttributeError` is treated like absence — any other exception
propagates to the caller after the already-yielded chunks. -/
theorem streaming_fallback_attributeError_only :
    ∀ (st : ServiceState) (env : Env) (text vid : String) (e : VoiceEntry)
      (eng : Engine),
      cacheGet st.voice_cache vid = some e → st.tts = some eng →
      (eng.infer_stream = none →
        synthesizeStreaming st env text vid =
          (([numpyToWav (eng.infer text e.ref_codes e.ref_text) 24000], none),
           st)) ∧
      (∀ (f : String → RefCode → String → List (List ℚ) × Option PyExc)
         (chunks : List (List ℚ)),
        eng.infer_stream = some f →
        f text e.ref_codes e.ref_text = (chunks, none) →
        synthesizeStreaming st env text vid =
          ((chunks.map chunkToBytes, none), st)) ∧
      (∀ (f : String → RefCode → String → List (List ℚ) × Option PyExc)
         (chunks : List (List ℚ)),
        eng.infer_stream = some f →
        f text e.ref_codes e.ref_text = (chunks, some PyExc.attributeError) →
        synthesizeStreaming st env text vid =
          ((chunks.map chunkToBytes ++
              [numpyToWav (eng.infer text e.ref_codes e.ref_text) 24000],
            none), st)) ∧
      (∀ (f : String → RefCode → String → List (List ℚ) × Option PyExc)
         (chunks : List (List ℚ)) (ex : PyExc),
        eng.infer_stream = some f →
        f text e.ref_codes e.ref_text = (chunks, some ex) →
        ex ≠ PyExc.attributeError →
        synthesizeStreaming st env text vid =
          ((chunks.map chunkToBytes, some ex), st)) := by
  intro st env text vid e eng hget htts
  have hgv := getVoiceData_of_found env hget
  have hsy := synthesize_of_found env text hget htts
  refine ⟨?_, ?_, ?_, ?_⟩
  · intro hnone
    unfold synthesizeStreaming
    rw [hgv]
    simp only [htts, hnone, hsy]
  · intro f chunks hf hfc
    unfold synthesizeStreaming
    rw [hgv]
    simp only [htts, hf, hfc]
  · intro f chunks hf hfc
    unfold synthesizeStreaming
    rw [hgv]
    simp only [htts, hf, hfc, hsy]
  · intro f chunks ex hf hfc hne
    cases ex with
    | valueError m =>
        unfold synthesizeStreaming
        rw [hgv]
        simp only [htts, hf, hfc]
    | attributeError => exact absurd rfl hne
    | engineNotReady =>
        unfold synthesizeStreaming
        rw [hgv]
        simp only [htts, hf, hfc]
    | otherExc m =>
        unfold synthesizeStreaming
        rw [hgv]
        simp only [htts, hf, hfc]

/-- Witness for the amended C8: the engine without the capability yields
one chunk equal to the full WAV payload. -/
theorem streaming_fallback_attributeError_only_witness :
    synthesizeStreaming stNoStream envTrivial "t" "v" =
      (([numpyToWav (engDummy.infer "t" entryV.ref_codes entryV.ref_text) 24000],
        none), stNoStream) :=
  ((streaming_fallback_attributeError_only stNoStream envTrivial "t" "v" entryV
      engDummy rfl rfl).1) rfl

/-- C10: at the OpenAI-compatible speech endpoint the requested voice names
coral and dave are aliased to the built-in voice greta before cache
validation (the endpoint body runs on the mapped id, so such requests are
validated and synthesized with greta's reference data); every other voice
name is passed through unchanged. -/
theorem openai_voice_aliasing :
    mapVoice "coral" = "greta" ∧ mapVoice "dave" = "greta" ∧
    (∀ v : String, v ≠ "coral" → v ≠ "dave" → mapVoice v = v) ∧
    (∀ (st : ServiceState) (env : Env) (input voice : String),
      openaiSpeech st env input voice =
        openaiSpeechCore (if is_init st then st else init_tts st env) env voice
          (mapVoice voice) input) := by
  refine ⟨rfl, rfl, ?_, ?_⟩
  · intro v h1 h2
    by_cases h3 : v = "greta"
    · subst h3; rfl
    · by_cases h4 : v = "mateo"
      · subst h4; rfl
      · by_cases h5 : v = "juliette"
        · subst h5; rfl
        · have k1 : (v == "greta") = false := beq_eq_false_iff_ne.mpr h3
          have k2 : (v == "mateo") = false := beq_eq_false_iff_ne.mpr h4
          have k3 : (v == "juliette") = false := beq_eq_false_iff_ne.mpr h5
          have k4 : (v == "coral") = false := beq_eq_false_iff_ne.mpr h1
          have k5 : (v == "dave") = false := beq_eq_false_iff_ne.mpr h2
          simp [mapVoice, voice_mapping, List.lookup, k1, k2, k3, k4, k5]
  · intro st env input voice
    rfl

/-- Witness for C10: the alias fires for coral and an unrelated name passes
through. -/
theorem openai_voice_aliasing_witness :
    mapVoice "coral" = "greta" ∧ mapVoice "alloy" = "alloy" :=
  ⟨openai_voice_aliasing.1,
   openai_voice_aliasing.2.2.1 "alloy" (by decide) (by decide)⟩
